import Mathlib

/-!
Verification of the cdiutils pipeline-orchestration specification.

The repository ships the orchestration engine (`BcdiPipeline` and its
collaborators: ParameterStore, RunRegistry, ReconstructionScorer,
CandidateSelector, ModeDecomposer, StageOrchestrator) together with the
notebook front end and the cluster job-submission templates.  The engine
code itself is not part of the source snapshot here (only its notebook
caller and the job templates are), so the engine components are modelled
from the specification; the SLURM job templates are embedded directly
from their shell-script sources.
-/

namespace BCDI

/-- Modelled from the spec: lifecycle status of one stochastic
phase-retrieval run (§3 Run). The engine source is missing from the
snapshot; statuses are the four named in the spec. -/
inductive Status where
  | pending
  | running
  | completed
  | failed
deriving DecidableEq, Repr

/-- Modelled from the spec: one stochastic phase-retrieval attempt
(§3 Run): run index, status, metric set (named scores), artifact
reference.  Metric values are modelled as integers; the metric set is an
association list from metric name to value. -/
structure Run where
  index : Nat
  status : Status
  metrics : List (String × Int)
  artifact : Option String
deriving DecidableEq, Repr

/-- Modelled from the spec: a RunSet is the full ordered collection of
Runs of one pipeline instance (§3). -/
abbrev RunSet := List Run

/-- Modelled from the spec: `ScoringError` — no completed runs carry the
requested metric (§4.4, §7). -/
structure ScoringError where
  criterion : String
deriving DecidableEq, Repr

/-- A run participates in ranking iff it is completed and carries the
requested metric (§4.4: only completed Runs with the metric present;
runs missing the metric are excluded, not treated as worst). -/
def eligible (rs : RunSet) (criterion : String) : List Run :=
  rs.filter (fun r => r.status == Status.completed && (r.metrics.lookup criterion).isSome)

/-- The metric value a run carries for a criterion (0 when absent;
eligible runs always carry it). -/
def metricValue (criterion : String) (r : Run) : Int :=
  (r.metrics.lookup criterion).getD 0

/-- The comparison used for ranking: ascending metric value (lower is
better for every supported criterion, §4.4), ties broken by ascending
original run index (§4.4 tie-break). -/
def rankLE (criterion : String) (a b : Run) : Prop :=
  metricValue criterion a < metricValue criterion b ∨
    (metricValue criterion a = metricValue criterion b ∧ a.index ≤ b.index)

instance (criterion : String) (a b : Run) : Decidable (rankLE criterion a b) := by
  unfold rankLE
  infer_instance

instance (criterion : String) : IsTotal Run (rankLE criterion) where
  total a b := by
    unfold rankLE
    rcases lt_trichotomy (metricValue criterion a) (metricValue criterion b) with h | h | h
    · exact Or.inl (Or.inl h)
    · rcases Nat.le_total a.index b.index with hi | hi
      · exact Or.inl (Or.inr ⟨h, hi⟩)
      · exact Or.inr (Or.inr ⟨h.symm, hi⟩)
    · exact Or.inr (Or.inl h)

instance (criterion : String) : IsTrans Run (rankLE criterion) where
  trans a b c hab hbc := by
    unfold rankLE at *
    rcases hab with h1 | ⟨h1, i1⟩
    · rcases hbc with h2 | ⟨h2, _⟩
      · exact Or.inl (h1.trans h2)
      · exact Or.inl (h2 ▸ h1)
    · rcases hbc with h2 | ⟨h2, i2⟩
      · exact Or.inl (h1 ▸ h2)
      · exact Or.inr ⟨h1.trans h2, i1.trans i2⟩

/-- Modelled from the spec: `rank(runSet, criterion) -> RankedList`
(§4.4).  The engine source is missing from the snapshot.  Only completed
runs carrying the metric participate; they are sorted ascending by the
metric with ties broken by ascending run index; if no completed run
carries the metric the call fails with `ScoringError`. -/
def rank (rs : RunSet) (criterion : String) : Except ScoringError (List Run) :=
  let el := eligible rs criterion
  if el.isEmpty then Except.error ⟨criterion⟩
  else Except.ok (el.insertionSort (rankLE criterion))

/-- Run indices of a ranking, for stating scenario results. -/
def rankIndices (rs : RunSet) (criterion : String) : Except ScoringError (List Nat) :=
  (rank rs criterion).map (fun l => l.map Run.index)

/-- Modelled from the spec: `selectTopN(rankedList, n) -> CandidateSet`
(§4.5): takes the first `n` entries, n clamped to the available entries,
never errors. -/
def selectTopN (rankedList : List Run) (n : Nat) : List Run :=
  rankedList.take n

/-- Candidate set as run identifiers. -/
def selectTopNIds (rankedList : List Run) (n : Nat) : List Nat :=
  (selectTopN rankedList n).map Run.index

/-- The end-to-end scenario RunSet of §8: `nb_run = 5`, runs 0, 2, 4
completed with `llk` values −120, −95, −140, runs 1 and 3 failed
(failed runs carry no metrics). -/
def scenarioRunSet : RunSet :=
  [ ⟨0, Status.completed, [("llk", -120)], some "run0.cxi"⟩,
    ⟨1, Status.failed, [], none⟩,
    ⟨2, Status.completed, [("llk", -95)], some "run2.cxi"⟩,
    ⟨3, Status.failed, [], none⟩,
    ⟨4, Status.completed, [("llk", -140)], some "run4.cxi"⟩ ]

/-- A RunSet with a tie: runs 7 and 3 both completed with llk = −5. -/
def tieRunSet : RunSet :=
  [ ⟨7, Status.completed, [("llk", -5)], some "run7.cxi"⟩,
    ⟨3, Status.completed, [("llk", -5)], some "run3.cxi"⟩ ]

/-- The ranking of the tied RunSet, for the C2 witness. -/
def tieRanked : List Run := (rank tieRunSet "llk").toOption.getD []

/-- Modelled from the spec: `StateError` — illegal state-machine
transition or double-terminal update (§7); for stage transitions it
names the missing prerequisite (§8). -/
inductive StateError where
  | unknownRun (id : Nat)
  | doubleTerminal (id : Nat)
  | illegalTransition (stage : String)
  | missingPrerequisite (what : String)
deriving DecidableEq, Repr

/-- Modelled from the spec: the RunRegistry's run store (§4.3); the
registry owns all Runs, insertion order = dispatch order. -/
abbrev Registry := List Run

/-- `get(runId) -> Run` (§4.3), as an Option-returning lookup by index. -/
def getRun (reg : Registry) (id : Nat) : Option Run :=
  reg.find? (fun r => r.index == id)

/-- A status is terminal iff completed or failed (§3 Run lifecycle). -/
def isTerminal : Status → Bool
  | Status.completed => true
  | Status.failed => true
  | _ => false

/-- Modelled from the spec: `register(run)` (§4.3) — idempotent
re-registration of a previously known run id is a no-op. -/
def registerRun (reg : Registry) (r : Run) : Registry :=
  if (getRun reg r.index).isSome then reg else reg ++ [r]

/-- The per-run effect of `update`: replace the fields of the run with
the matching index, leaving every other run untouched. -/
def setRun (id : Nat) (st : Status) (m : List (String × Int)) (a : Option String)
    (r : Run) : Run :=
  if r.index == id then ⟨r.index, st, m, a⟩ else r

/-- Modelled from the spec: `update(runId, status, metrics?, artifact?)`
(§4.3).  Updating a non-existent run id fails with `StateError`;
updating a Run already in a terminal status fails with `StateError`. -/
def update (reg : Registry) (id : Nat) (st : Status)
    (m : List (String × Int)) (a : Option String) : Except StateError Registry :=
  match getRun reg id with
  | none => Except.error (StateError.unknownRun id)
  | some r =>
    if isTerminal r.status then Except.error (StateError.doubleTerminal id)
    else Except.ok (reg.map (setRun id st m a))

/-- A registry operation: registration of a run or an update request. -/
inductive RegOp where
  | registerOp (r : Run)
  | updateOp (id : Nat) (st : Status) (m : List (String × Int)) (a : Option String)

/-- Apply one registry operation; a rejected update leaves the registry
unchanged (the error aborts the caller, not the store). -/
def applyOp (reg : Registry) (op : RegOp) : Registry :=
  match op with
  | RegOp.registerOp r => registerRun reg r
  | RegOp.updateOp id st m a =>
    match update reg id st m a with
    | Except.ok reg' => reg'
    | Except.error _ => reg

/-- Apply a sequence of registry operations in order. -/
def applyOps (reg : Registry) (ops : List RegOp) : Registry :=
  ops.foldl applyOp reg

/-- A registry holding one completed and one pending run, for C4. -/
def regC4 : Registry :=
  [ ⟨0, Status.completed, [("llk", -50)], some "run0.cxi"⟩,
    ⟨1, Status.pending, [], none⟩ ]

/-- Modelled from the spec: `SelectionError` — invalid candidate
reference; names the offending run id (§4.5, §7). -/
structure SelectionError where
  offending : Nat
deriving DecidableEq, Repr

/-- A run id refers to a known, completed run (§4.5 validation). -/
def completedIn (reg : Registry) (id : Nat) : Bool :=
  match getRun reg id with
  | some r => r.status == Status.completed
  | none => false

/-- Modelled from the spec: `selectExplicit(runIds) -> CandidateSet`
(§4.5): validates every id exists and is completed; unknown or
non-completed ids raise `SelectionError` naming the offending id. -/
def selectExplicit (reg : Registry) (ids : List Nat) : Except SelectionError (List Nat) :=
  match ids.find? (fun id => !completedIn reg id) with
  | some bad => Except.error ⟨bad⟩
  | none => Except.ok ids

/-- Modelled from the spec: a typed parameter value of the configuration
vocabulary (§6): strings, integers, integer tuples (crop shapes),
booleans, or an explicit null. -/
inductive PValue where
  | str (s : String)
  | int (n : Int)
  | tup (l : List Int)
  | boolean (b : Bool)
  | null
deriving DecidableEq, Repr

/-- A parameter layer: an association list from parameter name to
value; lookup returns the first binding. -/
abbrev Params := List (String × PValue)

/-- Modelled from the spec: `ConfigurationError` — bad or missing
parameter (§7); names the offending key. -/
inductive ConfigurationError where
  | missingOrInvalid (key : String)
deriving DecidableEq, Repr

/-- Modelled from the spec: layering `defaults → base → overrides`,
later layers win (§3 ParameterSnapshot); with association-list lookup,
prepending the later layers gives them precedence, and unknown keys of
any layer pass through untouched (§4.1 forward-compatibility). -/
def mergeLayers (defaults base overrides : Params) : Params :=
  overrides ++ base ++ defaults

/-- The required keys of §4.1: experiment path, sample name, scan
number. -/
def requiredKeys : List String := ["experiment_file_path", "sample_name", "scan"]

/-- Type validity of a required key's value (§4.1, §6): the experiment
path and sample name are strings, the scan number an integer. -/
def typeOk : String → PValue → Bool
  | "experiment_file_path", PValue.str _ => true
  | "sample_name", PValue.str _ => true
  | "scan", PValue.int _ => true
  | _, _ => false

/-- A required key is satisfied when present with a valid value. -/
def requiredKeyOk (p : Params) (k : String) : Bool :=
  match p.lookup k with
  | some v => typeOk k v
  | none => false

/-- The crop-shape constraint of §4.1: `preprocess_shape`, when present,
must be a tuple of rank 2 or 3. -/
def shapeOk (p : Params) : Bool :=
  match p.lookup "preprocess_shape" with
  | some (PValue.tup l) => l.length == 2 || l.length == 3
  | some _ => false
  | none => true

/-- Modelled from the spec: `resolve(baseConfig, overrides) ->
ParameterSnapshot` (§4.1) over the three layers of §3: merges with
override precedence, passes unknown keys through, and fails with
`ConfigurationError` when a required key is absent or has an invalid
type or shape. -/
def resolve (defaults base overrides : Params) : Except ConfigurationError Params :=
  match requiredKeys.find? (fun k => !requiredKeyOk (mergeLayers defaults base overrides) k) with
  | some k => Except.error (ConfigurationError.missingOrInvalid k)
  | none =>
    if shapeOk (mergeLayers defaults base overrides) then
      Except.ok (mergeLayers defaults base overrides)
    else Except.error (ConfigurationError.missingOrInvalid "preprocess_shape")

/-- Modelled from the spec: a reconstruction artifact — a complex-valued
array abstracted to its shape and a flat data vector (§3). -/
structure Artifact where
  shape : List Nat
  data : List Int
deriving DecidableEq, Repr

/-- Modelled from the spec: `DecompositionError` — insufficient or
incompatible candidates (§4.6, §7). -/
inductive DecompositionError where
  | insufficientCandidates (got : Nat)
  | incompatibleShapes
deriving DecidableEq, Repr

/-- Modelled from the spec: the single merged consensus reconstruction
(§3), with the relative weight of the dominant mode as an optional
diagnostic (§4.6; the weight formula is below this model's abstraction
level, so the model leaves the optional diagnostic unset). -/
structure ConsensusArtifact where
  shape : List Nat
  data : List Int
  dominantWeight : Option Int
deriving DecidableEq, Repr

/-- Modelled from the spec: registration of one artifact against the
reference (§4.6) — removes the global offset between independent
stochastic solutions; shape-preserving. -/
def alignTo (ref a : Artifact) : Artifact :=
  ⟨a.shape, a.data.map (fun v => v - ((a.data.headD 0) - (ref.data.headD 0)))⟩

/-- Modelled from the spec: the dominant mode of the aligned stack
(§4.6), abstracted as the element-wise combination of the aligned data
vectors. -/
def dominantMode (stack : List Artifact) : List Int :=
  match stack with
  | [] => []
  | a :: rest => rest.foldl (fun acc b => acc.zipWith (· + ·) b.data) a.data

/-- Modelled from the spec: `decompose(candidateSet) ->
ConsensusArtifact` (§4.6): fails with `DecompositionError` on fewer
than 2 candidates or incompatible shapes; otherwise aligns the
candidates and combines them into one consensus artifact whose shape is
the common (aligned) input shape. -/
def decompose (cands : List Artifact) : Except DecompositionError ConsensusArtifact :=
  match cands with
  | [] => Except.error (DecompositionError.insufficientCandidates 0)
  | [_] => Except.error (DecompositionError.insufficientCandidates 1)
  | a :: rest =>
    if rest.all (fun b => b.shape == a.shape) then
      Except.ok ⟨a.shape, dominantMode ((a :: rest).map (alignTo a)), none⟩
    else Except.error DecompositionError.incompatibleShapes

/-- Modelled from the spec: the stages of the orchestration state
machine (§4.7). -/
inductive Stage where
  | created
  | preprocessed
  | phased
  | analyzed
  | selected
  | modeDecomposed
  | postprocessed
  | failed
deriving DecidableEq, Repr

/-- Position of a stage along the forward chain of §4.7; `failed` sits
outside the chain and is reachable from anywhere. -/
def stageIndex : Stage → Nat
  | Stage.created => 0
  | Stage.preprocessed => 1
  | Stage.phased => 2
  | Stage.analyzed => 3
  | Stage.selected => 4
  | Stage.modeDecomposed => 5
  | Stage.postprocessed => 6
  | Stage.failed => 7

/-- Modelled from the spec: PipelineState (§3) — the current stage and
references to the RunSet, CandidateSet, and ConsensusArtifact as they
become available; the only mutable cross-stage object. -/
structure PipelineState where
  stage : Stage
  runSet : Registry
  candidates : Option (List Nat)
  consensus : Option ConsensusArtifact
deriving DecidableEq, Repr

/-- Modelled from the spec: the terminal outcome one dispatched run
reaches — completion with metrics and an artifact, or failure (§4.2: a
run that fails during execution is reported as failed status, never
raised as an exception). -/
inductive RunExec where
  | success (metrics : List (String × Int)) (artifact : String)
  | failure (reason : String)
deriving DecidableEq, Repr

/-- Whether a run execution completed. -/
def isSuccess : RunExec → Bool
  | RunExec.success _ _ => true
  | RunExec.failure _ => false

/-- Record one run's outcome as a registry Run (§4.2/§4.3): a failed
run carries no metrics and no artifact. -/
def recordRun (i : Nat) (e : RunExec) : Run :=
  match e with
  | RunExec.success m a => ⟨i, Status.completed, m, some a⟩
  | RunExec.failure _ => ⟨i, Status.failed, [], none⟩

/-- Record the outcomes of the fan-out, runs indexed from `n` in
dispatch order. -/
def recordRunsFrom (n : Nat) : List RunExec → Registry
  | [] => []
  | e :: rest => recordRun n e :: recordRunsFrom (n + 1) rest

/-- Record the outcomes of the fan-out, indices 0, 1, …, nb_run − 1. -/
def recordRuns (execs : List RunExec) : Registry := recordRunsFrom 0 execs

/-- Modelled from the spec: the errors the orchestrator can surface,
one wrapper per error kind of §7. -/
inductive PipelineError where
  | state (e : StateError)
  | configuration (e : ConfigurationError)
  | scoring (e : ScoringError)
  | selection (e : SelectionError)
  | decomposition (e : DecompositionError)
deriving DecidableEq, Repr

/-- Modelled from the spec: the preprocess transition
`Created → Preprocessed` (§4.7). -/
def preprocess (st : PipelineState) : Except PipelineError PipelineState :=
  if st.stage = Stage.created then Except.ok { st with stage := Stage.preprocessed }
  else Except.error (PipelineError.state (StateError.illegalTransition "preprocess"))

/-- Modelled from the spec: the phase-retrieval transition
`Preprocessed → Phased` (§4.7): fans out `nb_run` runs, waits for a
terminal status of every run, absorbs per-run failures as data, and
transitions to `Phased` when at least one run completed; with zero
completions the pipeline moves to `Failed` (§7). -/
def phaseRetrieval (st : PipelineState) (execs : List RunExec) :
    Except PipelineError PipelineState :=
  if st.stage = Stage.preprocessed then
    if execs.any isSuccess then
      Except.ok { st with stage := Stage.phased, runSet := recordRuns execs }
    else
      Except.ok { st with stage := Stage.failed, runSet := recordRuns execs }
  else Except.error (PipelineError.state (StateError.illegalTransition "phase_retrieval"))

/-- Modelled from the spec: the analyze transition `Phased → Analyzed`
(§4.7), scoring the registry under the requested criterion. -/
def analyze (st : PipelineState) (criterion : String) :
    Except PipelineError PipelineState :=
  if st.stage = Stage.phased then
    match rank st.runSet criterion with
    | Except.ok _ => Except.ok { st with stage := Stage.analyzed }
    | Except.error e => Except.error (PipelineError.scoring e)
  else Except.error (PipelineError.state (StateError.illegalTransition "analyse_phasing_results"))

/-- Modelled from the spec: candidate selection is either an integer
count under a criterion or an explicit id list (§4.5, §6). -/
inductive SelectionSpec where
  | topN (n : Nat) (criterion : String)
  | explicitIds (ids : List Nat)
deriving DecidableEq, Repr

/-- Modelled from the spec: the select transition
`Analyzed → Selected` (§4.7), producing the CandidateSet by top-N of
the ranking or by validated explicit ids. -/
def selectStage (st : PipelineState) : SelectionSpec → Except PipelineError PipelineState
  | SelectionSpec.topN n criterion =>
    if st.stage = Stage.analyzed then
      match rank st.runSet criterion with
      | Except.ok rl =>
        Except.ok { st with stage := Stage.selected, candidates := some (selectTopNIds rl n) }
      | Except.error e => Except.error (PipelineError.scoring e)
    else Except.error (PipelineError.state (StateError.illegalTransition "select_best_candidates"))
  | SelectionSpec.explicitIds ids =>
    if st.stage = Stage.analyzed then
      match selectExplicit st.runSet ids with
      | Except.ok chosen =>
        Except.ok { st with stage := Stage.selected, candidates := some chosen }
      | Except.error e => Except.error (PipelineError.selection e)
    else Except.error (PipelineError.state (StateError.illegalTransition "select_best_candidates"))

/-- Modelled from the spec: the mode-decomposition transition
`Selected → ModeDecomposed` (§4.7), loading the candidate artifacts and
producing the ConsensusArtifact. -/
def modeDecompose (st : PipelineState) (artifacts : List Artifact) :
    Except PipelineError PipelineState :=
  if st.stage = Stage.selected ∧ st.candidates.isSome then
    match decompose artifacts with
    | Except.ok c => Except.ok { st with stage := Stage.modeDecomposed, consensus := some c }
    | Except.error e => Except.error (PipelineError.decomposition e)
  else Except.error (PipelineError.state (StateError.illegalTransition "mode_decomposition"))

/-- Modelled from the spec: the postprocess transition
`ModeDecomposed → Postprocessed` (§4.7); invoked before mode
decomposition has produced a ConsensusArtifact it fails with a
`StateError` naming the missing prerequisite (§8). -/
def postprocess (st : PipelineState) : Except PipelineError PipelineState :=
  if st.consensus.isNone then
    Except.error (PipelineError.state (StateError.missingPrerequisite "ConsensusArtifact"))
  else if st.stage = Stage.modeDecomposed then
    Except.ok { st with stage := Stage.postprocessed }
  else Except.error (PipelineError.state (StateError.illegalTransition "postprocess"))

/-- One stage-transition request to the orchestrator. -/
inductive StageOp where
  | preprocessOp
  | phaseRetrievalOp (execs : List RunExec)
  | analyzeOp (criterion : String)
  | selectOp (sel : SelectionSpec)
  | modeDecomposeOp (artifacts : List Artifact)
  | postprocessOp
deriving DecidableEq, Repr

/-- Dispatch one stage-transition request (§4.7). -/
def stepOp (st : PipelineState) : StageOp → Except PipelineError PipelineState
  | StageOp.preprocessOp => preprocess st
  | StageOp.phaseRetrievalOp execs => phaseRetrieval st execs
  | StageOp.analyzeOp criterion => analyze st criterion
  | StageOp.selectOp sel => selectStage st sel
  | StageOp.modeDecomposeOp artifacts => modeDecompose st artifacts
  | StageOp.postprocessOp => postprocess st

/-- A word of a shell command in a job template: a literal, or a
substitution of a template parameter / environment variable. -/
inductive Word where
  | lit (s : String)
  | var (name : String)
deriving DecidableEq, Repr

/-- A shell command of a job template, as its whitespace-split words. -/
abbrev Command := List Word

/-- A cluster job-submission template: scheduler resource directives
plus the shell commands the job body runs in order. -/
structure JobTemplate where
  name : String
  directives : List String
  commands : List Command
deriving DecidableEq, Repr

/-- The ESRF ID01 SLURM template `pynx-id01-cdi_template.slurm`,
embedded from its shell source. -/
def id01Template : JobTemplate :=
  { name := "pynx-id01-cdi_template.slurm"
    directives :=
      [ "--partition=gpu,p9gpu", "--nodes=1", "--ntasks-per-node=1",
        "--gres=gpu:1", "--time=00:10:00", "--output=slurm-%j.out" ]
    commands :=
      [ [Word.lit "scontrol", Word.lit "--details", Word.lit "show", Word.lit "jobs",
          Word.var "SLURM_JOBID", Word.lit "|", Word.lit "grep", Word.lit "RES"],
        [Word.lit "module", Word.lit "load", Word.lit "pynx"],
        [Word.lit "cd", Word.var "data_path"],
        [Word.lit "pynx-cdi-id01", Word.lit "pynx-cdi-inputs.txt"] ] }

/-- The NERSC Perlmutter SLURM template, embedded from its shell
source. -/
def perlmutterTemplate : JobTemplate :=
  { name := "pynx-perlmutter-cdi_template.slurm"
    directives :=
      [ "--account=m4639", "--job-name PhaseRetrieval", "--constraint=gpu",
        "--nodes=1", "--ntasks=4", "--ntasks-per-node=4", "--cpus-per-task=32",
        "--gpus=4", "--gpus-per-task=1", "--gpu-bind=none", "--qos=regular",
        "--time=00:10:00", "--output=%x-%j.out" ]
    commands :=
      [ [Word.lit "module", Word.lit "use",
          Word.lit "/global/common/software/m3169/perlmutter/modulefiles"],
        [Word.lit "module", Word.lit "load", Word.lit "openmpi"],
        [Word.lit "scontrol", Word.lit "--details", Word.lit "show", Word.lit "jobs",
          Word.var "SLURM_JOBID", Word.lit "|", Word.lit "grep", Word.lit "RES"],
        [Word.lit "cd", Word.var "data_path"],
        [Word.lit "mpiexec", Word.lit "-n", Word.var "SLURM_NTASKS",
          Word.lit "/global/common/software/m4639/pynx-env/bin/pynx-cdi-id01",
          Word.lit "pynx-cdi-inputs.txt"] ] }

/-- The cluster job-submission templates shipped with the package. -/
def shippedTemplates : List JobTemplate := [id01Template, perlmutterTemplate]

/-- The command `cd $data_path`. -/
def isCdToDataPath (c : Command) : Bool :=
  c == [Word.lit "cd", Word.var "data_path"]

/-- A word that names the external phase-retrieval executable as a
literal (bare or via an absolute path); a substituted parameter never
does. -/
def namesExecutable (w : Word) : Bool :=
  match w with
  | Word.lit s => s == "pynx-cdi-id01" || List.isSuffixOf "/pynx-cdi-id01".data s.data
  | Word.var _ => false

/-- The command invokes the phase-retrieval executable on the literal
input-parameter file `pynx-cdi-inputs.txt` (an adjacent word pair). -/
def invokesPhaseRetrieval : Command → Bool
  | w1 :: w2 :: rest =>
    (namesExecutable w1 && w2 == Word.lit "pynx-cdi-inputs.txt") ||
      invokesPhaseRetrieval (w2 :: rest)
  | _ => false

/-- The command sequence changes directory to `$data_path` and some
later command invokes the phase-retrieval executable. -/
def cdThenInvoke : List Command → Bool
  | [] => false
  | c :: rest => (isCdToDataPath c && rest.any invokesPhaseRetrieval) || cdThenInvoke rest

/-- The template-parameter (variable) names a command substitutes. -/
def commandVars (c : Command) : List String :=
  c.filterMap (fun w => match w with | Word.var n => some n | Word.lit _ => none)

/-- All template parameters a job template's commands substitute. -/
def templateVars (t : JobTemplate) : List String :=
  (t.commands.map commandVars).flatten

/-- The registry of the §8 explicit-selection scenario: run 1 failed. -/
def regC8 : Registry :=
  [ ⟨0, Status.completed, [("llk", -120)], some "run0.cxi"⟩,
    ⟨1, Status.failed, [], none⟩ ]

/-- Two compatible 2×2 artifacts for the C9 witness. -/
def artA : Artifact := ⟨[2, 2], [3, 1, 4, 1]⟩

/-- Second compatible artifact for the C9 witness. -/
def artB : Artifact := ⟨[2, 2], [2, 7, 1, 8]⟩

/-- Default parameter layer for the C7 witness: the required keys plus a
valid crop shape and a key the overrides replace. -/
def d7 : Params :=
  [ ("experiment_file_path", PValue.str "/data/exp.h5"),
    ("sample_name", PValue.str "Sample_Pt"),
    ("scan", PValue.int 42),
    ("preprocess_shape", PValue.tup [150, 150]),
    ("nb_run", PValue.int 20),
    ("hkl", PValue.tup [1, 1, 1]) ]

/-- Override layer for the C7 witness: one replaced key and one key
unknown to the orchestrator's vocabulary that must pass through. -/
def o7 : Params :=
  [ ("nb_run", PValue.int 50),
    ("engine_extra_key", PValue.str "opaque") ]

/-- Default layer with a rank-1 crop shape, for the C7 witness. -/
def d7bad : Params :=
  [ ("experiment_file_path", PValue.str "/data/exp.h5"),
    ("sample_name", PValue.str "Sample_Pt"),
    ("scan", PValue.int 42),
    ("preprocess_shape", PValue.tup [150]) ]

/-- A preprocessed pipeline state, input of the C5 witness. -/
def pstPre : PipelineState := ⟨Stage.preprocessed, [], none, none⟩

/-- Run outcomes for the C5 witness: run 0 completes, run 1 fails. -/
def execsC5 : List RunExec :=
  [RunExec.success [("llk", -101)] "run0.cxi", RunExec.failure "out of GPU memory"]

/-- The state C5 produces on `execsC5`: phased, both runs recorded. -/
def pstPhased : PipelineState := ⟨Stage.phased, recordRuns execsC5, none, none⟩

/-- A freshly created pipeline state, input of the C6 witness. -/
def pst0 : PipelineState := ⟨Stage.created, [], none, none⟩

/-- The state after preprocessing `pst0`. -/
def pst1 : PipelineState := ⟨Stage.preprocessed, [], none, none⟩

/-- C1: on the 5-run scenario where runs 0, 2, 4 completed with llk
values −120, −95, −140 and runs 1, 3 failed, `rank` under "llk" returns
the order [4, 0, 2] (ascending llk, failed runs excluded) and
`selectTopN` of that ranking with n = 2 returns candidates {4, 0}. -/
theorem C1_rank_select_scenario :
    rankIndices scenarioRunSet "llk" = Except.ok [4, 0, 2] ∧
      ∃ rl, rank scenarioRunSet "llk" = Except.ok rl ∧ selectTopNIds rl 2 = [4, 0] := by
  refine ⟨rfl, (rank scenarioRunSet "llk").toOption.getD [], rfl, rfl⟩

/-- C2: `rank` is deterministic — two calls on the same RunSet and
criterion return identical output — and within any successful ranking,
runs with equal metric values appear in ascending order of their
original run index. -/
theorem C2_rank_deterministic_stable (rs : RunSet) (criterion : String) :
    rank rs criterion = rank rs criterion ∧
      ∀ l, rank rs criterion = Except.ok l →
        ∀ i j : Fin l.length, i < j →
          metricValue criterion (l.get i) = metricValue criterion (l.get j) →
          (l.get i).index ≤ (l.get j).index := by
  refine ⟨rfl, fun l hl i j hij heq => ?_⟩
  unfold rank at hl
  by_cases hempty : (eligible rs criterion).isEmpty
  · simp [hempty] at hl
  · simp only [hempty, Bool.false_eq_true, if_false, Except.ok.injEq] at hl
    subst hl
    have hsorted := List.sorted_insertionSort (rankLE criterion) (eligible rs criterion)
    have hrel := hsorted.rel_get_of_lt hij
    rcases hrel with hlt | ⟨_, hle⟩
    · exact absurd heq (ne_of_lt hlt)
    · exact hle

/-- Closed witness for C2: on the tied RunSet the ranking places run 3
before run 7, and the theorem applies at positions 0 < 1 which carry
equal metric values. -/
theorem C2_rank_deterministic_stable_witness :
    (tieRanked.get ⟨0, by decide⟩).index ≤ (tieRanked.get ⟨1, by decide⟩).index :=
  (C2_rank_deterministic_stable tieRunSet "llk").2 tieRanked rfl
    ⟨0, by decide⟩ ⟨1, by decide⟩ (by decide) rfl

/-- C3: `selectTopN` is total (never raises — it returns a plain list),
its result never exceeds min(n, length of the ranking), and when the
ranking is non-empty and n ≥ 1 its first element is the ranking's best
(first) entry. -/
theorem C3_selectTopN_clamped (rankedList : List Run) (n : Nat) :
    (selectTopN rankedList n).length ≤ min n rankedList.length ∧
      ∀ r, rankedList.head? = some r → 1 ≤ n →
        (selectTopN rankedList n).head? = some r := by
  constructor
  · simp [selectTopN, List.length_take]
  · intro r hr hn
    unfold selectTopN
    rw [List.head?_take, if_neg (by omega)]
    exact hr

/-- Closed witness for C3: the scenario's two best runs, n = 2. -/
theorem C3_selectTopN_clamped_witness :
    (selectTopN tieRanked 2).length ≤ min 2 tieRanked.length ∧
      (selectTopN tieRanked 2).head? =
        some ⟨3, Status.completed, [("llk", -5)], some "run3.cxi"⟩ :=
  ⟨(C3_selectTopN_clamped tieRanked 2).1,
    (C3_selectTopN_clamped tieRanked 2).2 _ rfl (by decide)⟩

lemma setRun_index (id : Nat) (st : Status) (m : List (String × Int))
    (a : Option String) (r : Run) : (setRun id st m a r).index = r.index := by
  unfold setRun
  split <;> rfl

lemma getRun_map_setRun (reg : Registry) (id id' : Nat) (st : Status)
    (m : List (String × Int)) (a : Option String) :
    getRun (reg.map (setRun id' st m a)) id =
      (getRun reg id).map (setRun id' st m a) := by
  unfold getRun
  rw [List.find?_map]
  have hpred : ((fun r : Run => r.index == id) ∘ setRun id' st m a) =
      (fun r : Run => r.index == id) := by
    funext r
    simp [Function.comp, setRun_index]
  rw [hpred]

lemma getRun_eq_index {reg : Registry} {id : Nat} {r : Run}
    (h : getRun reg id = some r) : r.index = id := by
  have := List.find?_some h
  simpa using this

lemma terminal_preserved_applyOp (reg : Registry) (id : Nat) (r : Run)
    (hget : getRun reg id = some r) (hterm : isTerminal r.status = true)
    (op : RegOp) : getRun (applyOp reg op) id = some r := by
  cases op with
  | registerOp r' =>
    show getRun (registerRun reg r') id = some r
    unfold registerRun
    split
    · exact hget
    · unfold getRun at hget ⊢
      rw [List.find?_append, hget]
      rfl
  | updateOp id' st m a =>
    show getRun (match update reg id' st m a with
        | Except.ok reg' => reg'
        | Except.error _ => reg) id = some r
    cases hg : getRun reg id' with
    | none =>
      have hu : update reg id' st m a = Except.error (StateError.unknownRun id') := by
        unfold update
        rw [hg]
      rw [hu]
      exact hget
    | some r'' =>
      by_cases hterm' : isTerminal r''.status = true
      · have hu : update reg id' st m a = Except.error (StateError.doubleTerminal id') := by
          unfold update
          rw [hg]
          exact if_pos hterm'
        rw [hu]
        exact hget
      · have hu : update reg id' st m a = Except.ok (reg.map (setRun id' st m a)) := by
          unfold update
          rw [hg]
          exact if_neg hterm'
        rw [hu]
        show getRun (reg.map (setRun id' st m a)) id = some r
        have hne : id' ≠ id := by
          intro hcontra
          subst hcontra
          rw [hget] at hg
          cases hg
          exact hterm' hterm
        have hidx : r.index = id := getRun_eq_index hget
        rw [getRun_map_setRun, hget]
        show some (setRun id' st m a r) = some r
        unfold setRun
        rw [hidx, if_neg (by simpa using Ne.symm hne)]

lemma terminal_preserved_applyOps (reg : Registry) (id : Nat) (r : Run)
    (hget : getRun reg id = some r) (hterm : isTerminal r.status = true)
    (ops : List RegOp) : getRun (applyOps reg ops) id = some r := by
  induction ops generalizing reg with
  | nil => exact hget
  | cons op rest ih =>
    unfold applyOps
    rw [List.foldl_cons]
    exact ih (applyOp reg op) (terminal_preserved_applyOp reg id r hget hterm op)

/-- C4: `update` on a run already in a terminal status fails with
`StateError`; `update` on an unregistered run id fails with
`StateError`; and once a run's status is terminal, no sequence of
registry operations ever changes that run again — its terminal status
is set at most once. -/
theorem C4_terminal_status_once (reg : Registry) (id : Nat) :
    (∀ r, getRun reg id = some r → isTerminal r.status = true →
        ∀ st m a, update reg id st m a = Except.error (StateError.doubleTerminal id)) ∧
      (getRun reg id = none →
        ∀ st m a, update reg id st m a = Except.error (StateError.unknownRun id)) ∧
      (∀ r, getRun reg id = some r → isTerminal r.status = true →
        ∀ ops, getRun (applyOps reg ops) id = some r) := by
  refine ⟨fun r hget hterm st m a => ?_, fun hnone st m a => ?_, fun r hget hterm ops => ?_⟩
  · unfold update
    rw [hget]
    simp [hterm]
  · unfold update
    rw [hnone]
  · exact terminal_preserved_applyOps reg id r hget hterm ops

/-- Closed witness for C4: in `regC4`, run 0 is terminal so a second
update fails, id 9 is unknown so its update fails, and run 0 survives a
sequence of further operations unchanged. -/
theorem C4_terminal_status_once_witness :
    update regC4 0 Status.failed [] none = Except.error (StateError.doubleTerminal 0) ∧
      update regC4 9 Status.completed [] none = Except.error (StateError.unknownRun 9) ∧
      getRun (applyOps regC4
          [RegOp.updateOp 1 Status.completed [("llk", -7)] (some "run1.cxi"),
            RegOp.updateOp 0 Status.failed [] none,
            RegOp.registerOp ⟨2, Status.pending, [], none⟩]) 0 =
        some ⟨0, Status.completed, [("llk", -50)], some "run0.cxi"⟩ :=
  ⟨(C4_terminal_status_once regC4 0).1 _ rfl rfl Status.failed [] none,
    (C4_terminal_status_once regC4 9).2.1 rfl Status.completed [] none,
    (C4_terminal_status_once regC4 0).2.2 _ rfl rfl _⟩

/-- C8: `selectExplicit` fails with a `SelectionError` naming an
offending id whenever some id in the list is unknown to the registry or
refers to a run that is not completed; the named id is one of the
requested ids and is indeed invalid. -/
theorem C8_selectExplicit_validates (reg : Registry) (ids : List Nat) :
    (∃ id ∈ ids, completedIn reg id = false) →
      ∃ e, selectExplicit reg ids = Except.error e ∧
        e.offending ∈ ids ∧ completedIn reg e.offending = false := by
  intro h
  obtain ⟨id0, hmem, hbad⟩ := h
  cases hf : ids.find? (fun id => !completedIn reg id) with
  | none =>
    rw [List.find?_eq_none] at hf
    exact absurd (by simpa using hbad) (by simpa using hf id0 hmem)
  | some bad =>
    have hpred := List.find?_some hf
    have hmem' := List.mem_of_find?_eq_some hf
    refine ⟨⟨bad⟩, ?_, hmem', by simpa using hpred⟩
    unfold selectExplicit
    rw [hf]

/-- Closed witness for C8: `selectExplicit([1])` where run 1 failed
raises `SelectionError` naming run 1. -/
theorem C8_selectExplicit_validates_witness :
    ∃ e, selectExplicit regC8 [1] = Except.error e ∧
      e.offending ∈ [1] ∧ completedIn regC8 e.offending = false :=
  C8_selectExplicit_validates regC8 [1] ⟨1, by decide, by decide⟩

/-- C9: `decompose` fails with `DecompositionError` on every candidate
set of fewer than 2 artifacts (including the empty set), and on 2 or
more artifacts of one common shape it returns a ConsensusArtifact whose
shape equals that (aligned) input shape. -/
theorem C9_decompose_shape (cands : List Artifact) (s : List Nat) :
    (cands.length < 2 → ∃ e, decompose cands = Except.error e) ∧
      (2 ≤ cands.length → (∀ b ∈ cands, b.shape = s) →
        ∃ c, decompose cands = Except.ok c ∧ c.shape = s) := by
  constructor
  · intro hlt
    match cands with
    | [] => exact ⟨DecompositionError.insufficientCandidates 0, rfl⟩
    | [_] => exact ⟨DecompositionError.insufficientCandidates 1, rfl⟩
    | a :: b :: rest =>
      simp at hlt
      omega
  · intro hge hsh
    match cands with
    | [] => simp at hge
    | [_] => simp at hge
    | a :: b :: rest =>
      have has : a.shape = s := hsh a (by simp)
      have hall : List.all (b :: rest) (fun x => x.shape == a.shape) = true := by
        rw [List.all_eq_true]
        intro x hx
        have hxs : x.shape = s := hsh x (by simp [hx])
        simp [hxs, has]
      refine ⟨⟨a.shape, dominantMode ((a :: b :: rest).map (alignTo a)), none⟩, ?_, has⟩
      show decompose (a :: b :: rest) = _
      simp only [decompose]
      rw [if_pos hall]

/-- Closed witness for C9: the empty candidate set is rejected and the
two-artifact compatible set yields a consensus of the same shape. -/
theorem C9_decompose_shape_witness :
    (∃ e, decompose ([] : List Artifact) = Except.error e) ∧
      ∃ c, decompose [artA, artB] = Except.ok c ∧ c.shape = [2, 2] :=
  ⟨(C9_decompose_shape [] [2, 2]).1 (by decide),
    (C9_decompose_shape [artA, artB] [2, 2]).2 (by decide)
      (by intro b hb; fin_cases hb <;> rfl)⟩

/-- C10: every shipped cluster job-submission template changes directory
to `$data_path` and afterwards invokes the phase-retrieval executable
`pynx-cdi-id01` (as a literal word, bare or by absolute path) on the
literal input file `pynx-cdi-inputs.txt`; the only substituted template
parameters are `data_path`, `SLURM_JOBID` and `SLURM_NTASKS`, so neither
the executable name nor the input file name is a template parameter. -/
theorem C10_templates_cd_then_invoke :
    shippedTemplates.all (fun t => cdThenInvoke t.commands) = true ∧
      shippedTemplates.all (fun t => (templateVars t).all
        (fun n => n == "data_path" || n == "SLURM_JOBID" || n == "SLURM_NTASKS")) = true :=
  ⟨by decide, by decide⟩

lemma lookup_append (l₁ l₂ : Params) (k : String) :
    (l₁ ++ l₂).lookup k = ((l₁.lookup k).or (l₂.lookup k)) := by
  induction l₁ with
  | nil => simp
  | cons p rest ih =>
    obtain ⟨k', v⟩ := p
    rw [List.cons_append, List.lookup_cons, List.lookup_cons]
    cases h : k == k' with
    | true => rfl
    | false => simpa using ih

lemma resolve_ok_eq {defaults base overrides : Params} {snap : Params}
    (h : resolve defaults base overrides = Except.ok snap) :
    snap = mergeLayers defaults base overrides := by
  unfold resolve at h
  cases hf : requiredKeys.find? (fun k => !requiredKeyOk (mergeLayers defaults base overrides) k) with
  | some k =>
    rw [hf] at h
    cases h
  | none =>
    rw [hf] at h
    by_cases hs : shapeOk (mergeLayers defaults base overrides) = true
    · rw [if_pos hs] at h
      exact (Except.ok.inj h).symm
    · rw [if_neg hs] at h
      cases h

/-- C7: on success `resolve` returns the layered snapshot: every key in
overrides maps to its override value and unknown keys of the lower
layers pass through unchanged; and `resolve` fails with
`ConfigurationError` when a required key (experiment path, sample name,
scan number) is absent from all layers or when the crop-shape tuple has
a rank other than 2 or 3. -/
theorem C7_resolve_layering (defaults base overrides : Params) :
    (∀ snap, resolve defaults base overrides = Except.ok snap →
        (∀ k v, overrides.lookup k = some v → snap.lookup k = some v) ∧
          (∀ k v, overrides.lookup k = none → base.lookup k = none →
            defaults.lookup k = some v → snap.lookup k = some v)) ∧
      (∀ k, k ∈ requiredKeys → (mergeLayers defaults base overrides).lookup k = none →
        ∃ e, resolve defaults base overrides = Except.error e) ∧
      (∀ l, (mergeLayers defaults base overrides).lookup "preprocess_shape" =
          some (PValue.tup l) → l.length ≠ 2 → l.length ≠ 3 →
        ∃ e, resolve defaults base overrides = Except.error e) := by
  refine ⟨fun snap hok => ?_, fun k hkmem hknone => ?_, fun l hl h2 h3 => ?_⟩
  · have hsnap := resolve_ok_eq hok
    subst hsnap
    constructor
    · intro k v hv
      unfold mergeLayers
      rw [lookup_append, lookup_append, hv]
      rfl
    · intro k v ho hb hd
      unfold mergeLayers
      rw [lookup_append, lookup_append, ho, hb, hd]
      rfl
  · have hbad : requiredKeyOk (mergeLayers defaults base overrides) k = false := by
      unfold requiredKeyOk
      rw [hknone]
    cases hf : requiredKeys.find?
        (fun k => !requiredKeyOk (mergeLayers defaults base overrides) k) with
    | none =>
      rw [List.find?_eq_none] at hf
      exact absurd (by simp [hbad]) (hf k hkmem)
    | some k' =>
      refine ⟨ConfigurationError.missingOrInvalid k', ?_⟩
      unfold resolve
      rw [hf]
  · have hshape : shapeOk (mergeLayers defaults base overrides) = false := by
      unfold shapeOk
      rw [hl]
      simp [h2, h3]
    cases hf : requiredKeys.find?
        (fun k => !requiredKeyOk (mergeLayers defaults base overrides) k) with
    | none =>
      refine ⟨ConfigurationError.missingOrInvalid "preprocess_shape", ?_⟩
      unfold resolve
      rw [hf, if_neg (by simp [hshape])]
    | some k' =>
      refine ⟨ConfigurationError.missingOrInvalid k', ?_⟩
      unfold resolve
      rw [hf]

/-- Closed witness for C7: overrides win, defaults pass through, a
configuration missing every required key is rejected, and a rank-1 crop
shape is rejected. -/
theorem C7_resolve_layering_witness :
    (mergeLayers d7 [] o7).lookup "nb_run" = some (PValue.int 50) ∧
      (mergeLayers d7 [] o7).lookup "hkl" = some (PValue.tup [1, 1, 1]) ∧
      (∃ e, resolve [] [] [] = Except.error e) ∧
      (∃ e, resolve d7bad [] [] = Except.error e) := by
  have h := (C7_resolve_layering d7 [] o7).1 (mergeLayers d7 [] o7) rfl
  exact ⟨h.1 "nb_run" (PValue.int 50) rfl,
    h.2 "hkl" (PValue.tup [1, 1, 1]) rfl rfl rfl,
    (C7_resolve_layering [] [] []).2.1 "experiment_file_path" (by decide) rfl,
    (C7_resolve_layering d7bad [] []).2.2 [150] rfl (by decide) (by decide)⟩

lemma recordRun_index (n : Nat) (e : RunExec) : (recordRun n e).index = n := by
  cases e <;> rfl

lemma getRun_recordRunsFrom (l : List RunExec) (n i : Nat) (hi : i < l.length) :
    getRun (recordRunsFrom n l) (n + i) = some (recordRun (n + i) (l.get ⟨i, hi⟩)) := by
  induction l generalizing n i with
  | nil => simp at hi
  | cons e rest ih =>
    cases i with
    | zero =>
      show getRun (recordRun n e :: recordRunsFrom (n + 1) rest) (n + 0) = _
      unfold getRun
      rw [List.find?_cons_of_pos _ (by simp [recordRun_index])]
      simp
    | succ i' =>
      show getRun (recordRun n e :: recordRunsFrom (n + 1) rest) (n + (i' + 1)) = _
      unfold getRun
      rw [List.find?_cons_of_neg _ (by simp [recordRun_index])]
      have harith : n + (i' + 1) = (n + 1) + i' := by omega
      rw [harith]
      exact ih (n + 1) i' (by simpa using Nat.lt_of_succ_lt_succ (by simpa using hi))

lemma getRun_recordRuns (execs : List RunExec) (i : Nat) (hi : i < execs.length) :
    getRun (recordRuns execs) i = some (recordRun i (execs.get ⟨i, hi⟩)) := by
  have := getRun_recordRunsFrom execs 0 i hi
  simpa using this

/-- C5: from a preprocessed state the phase-retrieval stage always
returns a new state (run failures are absorbed as data, never raised):
every failed run is recorded in the registry with failed status and no
metrics, the stage becomes `Phased` exactly when at least one submitted
run completed, and it becomes `Failed` exactly when zero runs
completed. -/
theorem C5_phase_retrieval_absorbs_failures (st : PipelineState) (execs : List RunExec) :
    st.stage = Stage.preprocessed →
      ∃ st', phaseRetrieval st execs = Except.ok st' ∧
        (∀ i, ∀ hi : i < execs.length, isSuccess (execs.get ⟨i, hi⟩) = false →
          getRun st'.runSet i = some ⟨i, Status.failed, [], none⟩) ∧
        (st'.stage = Stage.phased ↔ execs.any isSuccess = true) ∧
        (st'.stage = Stage.failed ↔ execs.any isSuccess = false) := by
  intro hpre
  unfold phaseRetrieval
  rw [if_pos hpre]
  by_cases hany : execs.any isSuccess = true
  · rw [if_pos hany]
    refine ⟨_, rfl, fun i hi hfail => ?_, by simp [hany], by simp [hany]⟩
    show getRun (recordRuns execs) i = _
    rw [getRun_recordRuns execs i hi]
    cases he : execs.get ⟨i, hi⟩ with
    | success m a =>
      rw [he] at hfail
      exact Bool.noConfusion hfail
    | failure reason => rfl
  · rw [if_neg hany]
    refine ⟨_, rfl, fun i hi hfail => ?_, by simp [hany], ?_⟩
    · show getRun (recordRuns execs) i = _
      rw [getRun_recordRuns execs i hi]
      cases he : execs.get ⟨i, hi⟩ with
      | success m a =>
        rw [he] at hfail
        exact Bool.noConfusion hfail
      | failure reason => rfl
    · simp only [Bool.not_eq_true] at hany
      simp [hany]

/-- Closed witness for C5: with one completed and one failed run the
stage transition succeeds, reaches `Phased`, and records run 1 as
failed with no metrics. -/
theorem C5_phase_retrieval_absorbs_failures_witness :
    phaseRetrieval pstPre execsC5 = Except.ok pstPhased ∧
      getRun pstPhased.runSet 1 = some ⟨1, Status.failed, [], none⟩ ∧
      pstPhased.stage = Stage.phased := by
  obtain ⟨st', hok, hfail, hph, hfl⟩ :=
    C5_phase_retrieval_absorbs_failures pstPre execsC5 rfl
  have hst : st' = pstPhased :=
    Except.ok.inj (hok.symm.trans (rfl : phaseRetrieval pstPre execsC5 = Except.ok pstPhased))
  subst hst
  exact ⟨hok, hfail 1 (by decide) rfl, hph.mpr rfl⟩

/-- C6: every stage transition the orchestrator accepts either moves the
pipeline to `Failed` or strictly forward along the stage chain — an
earlier stage is never re-entered — and invoking postprocess before
mode decomposition has produced a ConsensusArtifact fails with a
`StateError` naming the missing prerequisite. -/
theorem C6_transitions_forward_only (st : PipelineState) (op : StageOp) :
    (∀ st', stepOp st op = Except.ok st' →
        st'.stage = Stage.failed ∨ stageIndex st.stage < stageIndex st'.stage) ∧
      (st.consensus = none →
        stepOp st StageOp.postprocessOp =
          Except.error (PipelineError.state (StateError.missingPrerequisite "ConsensusArtifact"))) := by
  constructor
  · intro st' hok
    cases op with
    | preprocessOp =>
      replace hok : preprocess st = Except.ok st' := hok
      unfold preprocess at hok
      by_cases h : st.stage = Stage.created
      · rw [if_pos h] at hok
        have hst := Except.ok.inj hok
        subst hst
        right
        rw [h]
        norm_num [stageIndex]
      · rw [if_neg h] at hok
        cases hok
    | phaseRetrievalOp execs =>
      replace hok : phaseRetrieval st execs = Except.ok st' := hok
      unfold phaseRetrieval at hok
      by_cases h : st.stage = Stage.preprocessed
      · rw [if_pos h] at hok
        by_cases hany : execs.any isSuccess = true
        · rw [if_pos hany] at hok
          have hst := Except.ok.inj hok
          subst hst
          right
          rw [h]
          norm_num [stageIndex]
        · rw [if_neg hany] at hok
          have hst := Except.ok.inj hok
          subst hst
          left
          rfl
      · rw [if_neg h] at hok
        cases hok
    | analyzeOp criterion =>
      replace hok : analyze st criterion = Except.ok st' := hok
      unfold analyze at hok
      by_cases h : st.stage = Stage.phased
      · rw [if_pos h] at hok
        cases hr : rank st.runSet criterion with
        | ok rl =>
          rw [hr] at hok
          have hst := Except.ok.inj hok
          subst hst
          right
          rw [h]
          norm_num [stageIndex]
        | error e =>
          rw [hr] at hok
          cases hok
      · rw [if_neg h] at hok
        cases hok
    | selectOp sel =>
      cases sel with
      | topN n criterion =>
        replace hok :
            (if st.stage = Stage.analyzed then
              match rank st.runSet criterion with
              | Except.ok rl => Except.ok { st with stage := Stage.selected, candidates := some (selectTopNIds rl n) }
              | Except.error e => Except.error (PipelineError.scoring e)
            else Except.error (PipelineError.state (StateError.illegalTransition "select_best_candidates"))) =
            Except.ok st' := hok
        by_cases h : st.stage = Stage.analyzed
        · rw [if_pos h] at hok
          cases hr : rank st.runSet criterion with
          | ok rl =>
            rw [hr] at hok
            have hst := Except.ok.inj hok
            subst hst
            right
            rw [h]
            norm_num [stageIndex]
          | error e =>
            rw [hr] at hok
            cases hok
        · rw [if_neg h] at hok
          cases hok
      | explicitIds ids =>
        replace hok :
            (if st.stage = Stage.analyzed then
              match selectExplicit st.runSet ids with
              | Except.ok chosen => Except.ok { st with stage := Stage.selected, candidates := some chosen }
              | Except.error e => Except.error (PipelineError.selection e)
            else Except.error (PipelineError.state (StateError.illegalTransition "select_best_candidates"))) =
            Except.ok st' := hok
        by_cases h : st.stage = Stage.analyzed
        · rw [if_pos h] at hok
          cases hr : selectExplicit st.runSet ids with
          | ok chosen =>
            rw [hr] at hok
            have hst := Except.ok.inj hok
            subst hst
            right
            rw [h]
            norm_num [stageIndex]
          | error e =>
            rw [hr] at hok
            cases hok
        · rw [if_neg h] at hok
          cases hok
    | modeDecomposeOp artifacts =>
      replace hok : modeDecompose st artifacts = Except.ok st' := hok
      unfold modeDecompose at hok
      by_cases h : st.stage = Stage.selected ∧ st.candidates.isSome = true
      · rw [if_pos h] at hok
        cases hd : decompose artifacts with
        | ok c =>
          rw [hd] at hok
          have hst := Except.ok.inj hok
          subst hst
          right
          rw [h.1]
          norm_num [stageIndex]
        | error e =>
          rw [hd] at hok
          cases hok
      · rw [if_neg h] at hok
        cases hok
    | postprocessOp =>
      replace hok : postprocess st = Except.ok st' := hok
      unfold postprocess at hok
      by_cases hc : st.consensus.isNone = true
      · rw [if_pos hc] at hok
        cases hok
      · rw [if_neg hc] at hok
        by_cases h : st.stage = Stage.modeDecomposed
        · rw [if_pos h] at hok
          have hst := Except.ok.inj hok
          subst hst
          right
          rw [h]
          norm_num [stageIndex]
        · rw [if_neg h] at hok
          cases hok
  · intro hnone
    show postprocess st = _
    unfold postprocess
    rw [if_pos (by rw [hnone]; rfl)]

/-- Closed witness for C6: preprocessing a created pipeline moves it
strictly forward, and postprocessing it (no ConsensusArtifact yet)
fails with the `StateError` naming the missing prerequisite. -/
theorem C6_transitions_forward_only_witness :
    (pst1.stage = Stage.failed ∨ stageIndex pst0.stage < stageIndex pst1.stage) ∧
      stepOp pst0 StageOp.postprocessOp =
        Except.error (PipelineError.state (StateError.missingPrerequisite "ConsensusArtifact")) :=
  ⟨(C6_transitions_forward_only pst0 StageOp.preprocessOp).1 pst1 rfl,
    (C6_transitions_forward_only pst0 StageOp.preprocessOp).2 rfl⟩

end BCDI
